import Mathlib

/-!
Shallow embedding of `src/mcp_project/mcp_chatbot.py`: the `MCP_ChatBot`
class, its capability registry (the single flat `sessions` dict shared by
tool names, prompt names and resource URIs), the tool-calling conversation
loop `process_query`, resource fetching `get_resource`, prompt execution
`execute_prompt`, prompt listing `list_prompts`, and one iteration of the
interactive `chat_loop`.

External collaborators are modelled as oracles: an `Env` of
session-interface and JSON-library functions, and a finite script of model
responses consumed by the conversation loop (each consumed response is one
chat-completions call).  Python exceptions are modelled as explicit outcome
constructors; `print` output is collected in lists of strings (the exact
punctuation of the printed text is abbreviated).  Live session objects are
identified by `Nat` ids.
-/

namespace Mcp

/-- Python dict assignment on an insertion-ordered association list:
assigning an existing key updates it in place (keeping its position), a new
key is appended at the end.  This is `self.sessions[k] = v`. -/
def dictInsert : List (String × Nat) → String → Nat → List (String × Nat)
  | [], k, v => [(k, v)]
  | (k0, v0) :: rest, k, v =>
    if k0 = k then (k, v) :: rest else (k0, v0) :: dictInsert rest k v

/-- Python `self.sessions.get(k)`: the binding of `k`, if any. -/
def dictGet : List (String × Nat) → String → Option Nat
  | [], _ => none
  | (k0, v0) :: rest, k => if k0 = k then some v0 else dictGet rest k

/-- One tool as advertised by a server (an element of `response.tools`). -/
structure Tool where
  name : String
  description : String
  inputSchema : String
deriving DecidableEq

/-- One prompt as advertised by a server; argument descriptors are kept as
their names. -/
structure Prompt where
  name : String
  description : String
  arguments : List String
deriving DecidableEq

/-- What a successfully connected server advertises: tools, prompts and
resource URIs (already passed through `str`). -/
structure ServerData where
  tools : List Tool
  prompts : List Prompt
  resources : List String
deriving DecidableEq

/-- Entry of `self.available_tools`, the catalog sent to the model
(the `function` payload of the OpenAI tool descriptor). -/
structure ToolDescr where
  name : String
  description : String
  parameters : String
deriving DecidableEq

/-- Entry of `self.available_prompts`. -/
structure PromptDescr where
  name : String
  description : String
  arguments : List String
deriving DecidableEq

/-- The mutable state of `MCP_ChatBot` built during the connect phase:
`available_tools`, `available_prompts`, and the one flat `sessions` mapping
keyed by tool names, prompt names and resource URIs alike. -/
structure ChatState where
  available_tools : List ToolDescr
  available_prompts : List PromptDescr
  sessions : List (String × Nat)
deriving DecidableEq

/-- Result of attempting to launch and handshake one configured server:
either a live session (its id) together with what it advertises, or a
raised connection/handshake exception with its message. -/
inductive ConnectOutcome
  | ok (serverName : String) (sid : Nat) (data : ServerData)
  | fail (serverName : String) (err : String)
deriving DecidableEq

/-- The `for tool in response.tools:` loop of `connect_to_server`:
`self.sessions[tool.name] = session` then an append to
`self.available_tools`. -/
def registerTools (sid : Nat) (ts : List Tool) (st : ChatState) : ChatState :=
  ts.foldl (fun acc t =>
    ⟨acc.available_tools ++ [⟨t.name, t.description, t.inputSchema⟩],
     acc.available_prompts,
     dictInsert acc.sessions t.name sid⟩) st

/-- The `for prompt in prompts_response.prompts:` loop of
`connect_to_server` (the surrounding truthiness guard is equivalent to
iterating the possibly empty list). -/
def registerPrompts (sid : Nat) (ps : List Prompt) (st : ChatState) : ChatState :=
  ps.foldl (fun acc p =>
    ⟨acc.available_tools,
     acc.available_prompts ++ [⟨p.name, p.description, p.arguments⟩],
     dictInsert acc.sessions p.name sid⟩) st

/-- The `for resource in resources_response.resources:` loop of
`connect_to_server`: URI-to-session mapping only, no catalog entry. -/
def registerResources (sid : Nat) (rs : List String) (st : ChatState) : ChatState :=
  rs.foldl (fun acc uri =>
    ⟨acc.available_tools, acc.available_prompts, dictInsert acc.sessions uri sid⟩) st

/-- `connect_to_server`: on success registers tools, prompts and resources
in that order into the shared state and prints a connected line; the
enclosing `try/except` turns any connection or handshake failure into a
printed error with the state untouched. -/
def connect_to_server (acc : ChatState × List String) (o : ConnectOutcome) :
    ChatState × List String :=
  match o with
  | .fail nm err => (acc.1, acc.2 ++ ["Error connecting to " ++ nm ++ ": " ++ err])
  | .ok nm sid d =>
    (registerResources sid d.resources (registerPrompts sid d.prompts (registerTools sid d.tools acc.1)),
     acc.2 ++ ["Connected to " ++ nm])

/-- `connect_to_servers`: one `connect_to_server` call per configured
server, in configuration order. -/
def connect_to_servers (acc : ChatState × List String) (os : List ConnectOutcome) :
    ChatState × List String :=
  os.foldl connect_to_server acc

/-- All keys a server registration inserts into `sessions`
(tool names, then prompt names, then resource URIs). -/
def serverKeys (d : ServerData) : List String :=
  d.tools.map Tool.name ++ d.prompts.map Prompt.name ++ d.resources

/-- Sequential `sessions[k] = sid` assignments for a list of keys. -/
def insertAll (s : List (String × Nat)) (ks : List String) (sid : Nat) :
    List (String × Nat) :=
  ks.foldl (fun a k => dictInsert a k sid) s

/-- One tool-invocation request of a model response: `call.id`,
`call.function.name`, and the raw serialized `call.function.arguments`. -/
structure ToolCall where
  id : String
  name : String
  arguments : String
deriving DecidableEq

/-- One model response: `message.content` and `message.tool_calls`
(the empty list models both an absent and an empty tool-call array, which
the code treats identically via the truthiness test `if tool_calls:`). -/
structure ModelResponse where
  content : Option String
  tool_calls : List ToolCall
deriving DecidableEq

/-- One transcript entry of the `messages` list inside `process_query`.
`assistantToolCall` is the assistant entry carrying a single-element
`tool_calls` array (id, name, `json.dumps` of the parsed arguments);
`tool` is the paired result entry carrying `tool_call_id` and the returned
content.  `assistantText` is a plain assistant text entry (the code never
appends one, but the type can express it). -/
inductive Message
  | user (content : String)
  | assistantText (content : String)
  | assistantToolCall (id : String) (name : String) (arguments : String)
  | tool (tool_call_id : String) (content : String)
deriving DecidableEq

/-- Oracles for the external JSON library and the MCP session interface.
`parse` is `json.loads` on the raw argument payload (`none` models a raised
decode error) returning an opaque string representation of the parsed
value; `dumps` is `json.dumps` of that parsed value; `callTool`,
`readResource` and `getPrompt` are the session methods on the session
identified by the `Nat` id.  For `readResource` and `getPrompt`, `none`
models a raised exception (caught by the surrounding `try`), and `some`
carries the extracted text contents / message texts. -/
structure Env where
  parse : String → Option String
  dumps : String → String
  callTool : Nat → String → String → String
  readResource : Nat → String → Option (List String)
  getPrompt : Nat → String → List (String × String) → Option (List String)

/-- The `Calling tool ... with args ...` print line. -/
def callingMsg (nm args : String) : String :=
  "Calling tool " ++ nm ++ " with args " ++ args

/-- The per-call not-found print line of `process_query`. -/
def toolNotFoundMsg (nm : String) : String :=
  "Tool " ++ nm ++ " not found."

/-- Outcome of the `for call in tool_calls:` body over one turn:
`ok` ran every call; `earlyReturn` is the `return` taken when a tool name
is missing from `sessions`; `raised` is an exception escaping the body
(malformed JSON arguments). -/
inductive TurnResult
  | ok (msgs : List Message) (printed : List String)
  | earlyReturn (msgs : List Message) (printed : List String)
  | raised (msgs : List Message) (printed : List String)
deriving DecidableEq

/-- The `for call in tool_calls:` body of `process_query`, call by call:
parse the arguments with `json.loads` (raising on failure, before
anything is printed for that call), print the calling line, look the tool
name up in `sessions` (printing not-found and returning from
`process_query` when absent), invoke the tool through the owning session
and append the paired assistant / tool transcript entries. -/
def handleCalls (env : Env) (sessions : List (String × Nat)) :
    List ToolCall → List Message → List String → TurnResult
  | [], msgs, printed => .ok msgs printed
  | c :: rest, msgs, printed =>
    match env.parse c.arguments with
    | none => .raised msgs printed
    | some v =>
      match dictGet sessions c.name with
      | none => .earlyReturn msgs (printed ++ [callingMsg c.name v, toolNotFoundMsg c.name])
      | some sid =>
        handleCalls env sessions rest
          (msgs ++ [Message.assistantToolCall c.id c.name (env.dumps v),
                    Message.tool c.id (env.callTool sid c.name v)])
          (printed ++ [callingMsg c.name v])

/-- Final observation of one `process_query` invocation: the transcript,
the printed lines, and how many chat-completions calls were made.
`done` = the loop hit `break` on a response without tool calls;
`notFound` = the early `return` on an unregistered tool name;
`exn` = an exception (malformed JSON arguments) propagated out of
`process_query`; `scriptExhausted` = the loop was still requesting model
responses when the finite script ran out. -/
inductive QueryResult
  | done (msgs : List Message) (printed : List String) (modelCalls : Nat)
  | notFound (msgs : List Message) (printed : List String) (modelCalls : Nat)
  | exn (msgs : List Message) (printed : List String) (modelCalls : Nat)
  | scriptExhausted (msgs : List Message) (printed : List String) (modelCalls : Nat)
deriving DecidableEq

/-- Python `print(message.content)` when content is `None`. -/
def optContent : Option String → String
  | some s => s
  | none => "None"

/-- The `while True:` loop of `process_query`, driven by a finite script of
model responses; consuming one response is one chat-completions call. -/
def processQueryLoop (env : Env) (sessions : List (String × Nat)) :
    List ModelResponse → List Message → List String → Nat → QueryResult
  | [], msgs, printed, n => .scriptExhausted msgs printed n
  | r :: rest, msgs, printed, n =>
    if r.tool_calls = [] then
      .done msgs (printed ++ [optContent r.content]) (n + 1)
    else
      match handleCalls env sessions r.tool_calls msgs printed with
      | .ok msgs2 printed2 => processQueryLoop env sessions rest msgs2 printed2 (n + 1)
      | .earlyReturn msgs2 printed2 => .notFound msgs2 printed2 (n + 1)
      | .raised msgs2 printed2 => .exn msgs2 printed2 (n + 1)

/-- `process_query`: start the loop on the transcript
`[{"role": "user", "content": query}]`. -/
def process_query (env : Env) (sessions : List (String × Nat))
    (script : List ModelResponse) (query : String) : QueryResult :=
  processQueryLoop env sessions script [Message.user query] [] 0

/-- Transcript of a finished `process_query` invocation. -/
def msgsOf : QueryResult → List Message
  | .done m _ _ => m
  | .notFound m _ _ => m
  | .exn m _ _ => m
  | .scriptExhausted m _ _ => m

/-- Printed lines of a finished `process_query` invocation. -/
def printedOf : QueryResult → List String
  | .done _ p _ => p
  | .notFound _ p _ => p
  | .exn _ p _ => p
  | .scriptExhausted _ p _ => p

/-- Number of chat-completions calls a `process_query` invocation made. -/
def modelCallsOf : QueryResult → Nat
  | .done _ _ n => n
  | .notFound _ _ n => n
  | .exn _ _ n => n
  | .scriptExhausted _ _ n => n

/-- Whether the loop terminated via `break` (a response with no tool
calls). -/
def isDone : QueryResult → Bool
  | .done _ _ _ => true
  | _ => false

/-- The pair of transcript entries `process_query` appends for one
successfully executed tool call, given the parsed arguments and owning
session of each call. -/
def callPair (env : Env) (argOf : ToolCall → String) (sidOf : ToolCall → Nat)
    (c : ToolCall) : List Message :=
  [Message.assistantToolCall c.id c.name (env.dumps (argOf c)),
   Message.tool c.id (env.callTool (sidOf c) c.name (argOf c))]

/-- Concatenated assistant/tool pairs for a whole turn, in request order. -/
def pairsFor (env : Env) (argOf : ToolCall → String) (sidOf : ToolCall → Nat) :
    List ToolCall → List Message
  | [] => []
  | c :: cs => callPair env argOf sidOf c ++ pairsFor env argOf sidOf cs

/-- Calling-line prints for a whole turn, in request order. -/
def printsFor (argOf : ToolCall → String) : List ToolCall → List String
  | [] => []
  | c :: cs => callingMsg c.name (argOf c) :: printsFor argOf cs

/-- Python `str.lower` on one character (ASCII range, which covers every
string the code compares after lowering). -/
def pyLowerChar (c : Char) : Char :=
  if 65 ≤ c.toNat ∧ c.toNat ≤ 90 then Char.ofNat (c.toNat + 32) else c

/-- Python `str.lower` (ASCII). -/
def pyLower (s : String) : String :=
  ⟨s.data.map pyLowerChar⟩

/-- Python `str.strip`: drop whitespace from both ends. -/
def pyStrip (s : String) : String :=
  ⟨((s.data.dropWhile Char.isWhitespace).reverse.dropWhile Char.isWhitespace).reverse⟩

/-- Python `s.startswith(pre)`. -/
def pyStartsWith (s pre : String) : Bool :=
  List.isPrefixOf pre.data s.data

/-- Python slicing `s[n:]`. -/
def pyDrop (n : Nat) (s : String) : String :=
  ⟨s.data.drop n⟩

/-- Helper for `pySplitChar`: accumulate the current segment (reversed). -/
def pySplitCharAux (sep : Char) : List Char → List Char → List String
  | [], acc => [⟨acc.reverse⟩]
  | c :: cs, acc =>
    if c = sep then ⟨acc.reverse⟩ :: pySplitCharAux sep cs []
    else pySplitCharAux sep cs (c :: acc)

/-- Python `s.split(sep)` for a one-character separator. -/
def pySplitChar (sep : Char) (s : String) : List String :=
  pySplitCharAux sep s.data []

/-- Join segments back with a separator (used to model `split(sep, 1)` as
a split followed by re-joining the tail). -/
def joinSep (sep : String) : List String → String
  | [] => ""
  | [x] => x
  | x :: xs => x ++ sep ++ joinSep sep xs

/-- Outcome of `get_resource`. -/
inductive ResourceOutcome
  | notFound (printed : List String)
  | gotContent (sid : Nat) (printed : List String)
  | noContent (sid : Nat) (printed : List String)
  | errorCaught (printed : List String)
deriving DecidableEq

/-- The session lookup of `get_resource`: exact `sessions.get(uri)`, and
when that misses and the URI starts with `papers://`, the fallback scan
over `self.sessions.items()` taking the first key under that scheme. -/
def findSchemeSession : List (String × Nat) → Option Nat
  | [] => none
  | (k, s) :: rest =>
    if pyStartsWith k "papers://" then some s else findSchemeSession rest

/-- Combined exact-match-then-fallback resolution of `get_resource`. -/
def resolveResource (sessions : List (String × Nat)) (uri : String) : Option Nat :=
  match dictGet sessions uri with
  | some s => some s
  | none =>
    if pyStartsWith uri "papers://" then findSchemeSession sessions else none

/-- The guarded read of `get_resource` once a session is resolved:
`session.read_resource(uri)` inside `try/except`, printing the first
content item when present, a no-content line otherwise, and a caught
error line when the read raises. -/
def readThrough (env : Env) (sid : Nat) (uri : String) : ResourceOutcome :=
  match env.readResource sid uri with
  | none => .errorCaught ["Error"]
  | some [] => .noContent sid ["No content available."]
  | some (t :: _) => .gotContent sid ["Resource: " ++ uri, "Content:", t]

/-- `get_resource`: resolve the URI (with the `papers://` fallback), print
not-found and return when no session is found, otherwise read through the
resolved session. -/
def get_resource (env : Env) (sessions : List (String × Nat)) (uri : String) :
    ResourceOutcome :=
  match resolveResource sessions uri with
  | none => .notFound ["Resource " ++ uri ++ " not found."]
  | some sid => readThrough env sid uri

/-- Printed lines of a `get_resource` call. -/
def resourcePrinted : ResourceOutcome → List String
  | .notFound p => p
  | .gotContent _ p => p
  | .noContent _ p => p
  | .errorCaught p => p

/-- Outcome of `execute_prompt`.  `notFound` is the guard before the
`try` block: nothing is instantiated and no model call happens;
`noMessages` is the silently-empty `result.messages`; `ran` carries the
`process_query` outcome on the rendered prompt text; `errorCaught` is the
`except` branch. -/
inductive PromptOutcome
  | notFound (printed : List String)
  | noMessages (printed : List String)
  | ran (printed : List String) (q : QueryResult)
  | errorCaught (printed : List String)
deriving DecidableEq

/-- The body of `execute_prompt` after the session lookup succeeded:
`session.get_prompt` inside `try/except`, then feed the text of the first
message into `process_query`. -/
def promptDispatch (env : Env) (st : ChatState) (script : List ModelResponse)
    (sid : Nat) (nm : String) (args : List (String × String)) : PromptOutcome :=
  match env.getPrompt sid nm args with
  | none => .errorCaught ["Error"]
  | some [] => .noMessages []
  | some (t :: _) =>
    .ran ["Executing prompt " ++ nm] (process_query env st.sessions script t)

/-- `execute_prompt`: look the prompt name up in the flat `sessions`
mapping; print not-found and return when absent, otherwise instantiate and
run the prompt. -/
def execute_prompt (env : Env) (st : ChatState) (script : List ModelResponse)
    (nm : String) (args : List (String × String)) : PromptOutcome :=
  match dictGet st.sessions nm with
  | none => .notFound ["Prompt " ++ nm ++ " not found."]
  | some sid => promptDispatch env st script sid nm args

/-- Number of chat-completions calls an `execute_prompt` invocation made. -/
def promptModelCalls : PromptOutcome → Nat
  | .ran _ q => modelCallsOf q
  | _ => 0

/-- Printed lines of an `execute_prompt` call. -/
def promptPrinted : PromptOutcome → List String
  | .notFound p => p
  | .noMessages p => p
  | .ran p q => p ++ printedOf q
  | .errorCaught p => p

/-- `list_prompts`: print the catalog of known prompts. -/
def list_prompts (st : ChatState) : List String :=
  if st.available_prompts = [] then ["No prompts available."]
  else
    "Available prompts:" ::
      st.available_prompts.foldr (fun p acc =>
        ("- " ++ p.name ++ ": " ++ p.description) ::
          ((if p.arguments ≠ [] then
              "  Arguments:" :: p.arguments.map (fun a => "    - " ++ a)
            else []) ++ acc)) []

/-- Python `query.split()`: whitespace tokenization (space-separated
tokens, empty tokens dropped). -/
def splitWs (s : String) : List String :=
  (pySplitChar ' ' s).filter (fun t => t ≠ "")

/-- The `key, value = arg.split(chr(61), 1)` argument collection of the
`/prompt` command (tokens without an equals sign are skipped). -/
def parseArgPairs : List String → List (String × String)
  | [] => []
  | a :: rest =>
    match pySplitChar '=' a with
    | k :: v :: vs => (k, joinSep "=" (v :: vs)) :: parseArgPairs rest
    | _ => parseArgPairs rest

/-- One iteration of the body of `chat_loop` on one input line: returns
whether the loop keeps accepting input (false only for `quit`) and the
printed lines.  The final catch-all `except` converts an exception
escaping `process_query` into a printed error line and continues. -/
def chat_step (env : Env) (st : ChatState) (script : List ModelResponse)
    (query : String) : Bool × List String :=
  let q := pyStrip query
  if q = "" then (true, [])
  else if pyLower q = "quit" then (false, [])
  else if pyStartsWith q "@" then
    let topic := pyDrop 1 q
    let uri := if topic = "folders" then "papers://folders" else "papers://" ++ topic
    (true, resourcePrinted (get_resource env st.sessions uri))
  else if pyStartsWith q "/" then
    match splitWs q with
    | [] => (true, [])
    | cmd :: rest =>
      if pyLower cmd = "/prompts" then (true, list_prompts st)
      else if pyLower cmd = "/prompt" then
        match rest with
        | [] => (true, ["Usage: /prompt <name> <arg1=value1> <arg2=value2>"])
        | nm :: argToks =>
          (true, promptPrinted (execute_prompt env st script nm (parseArgPairs argToks)))
      else (true, ["Unknown command: " ++ pyLower cmd])
  else
    match process_query env st.sessions script q with
    | .exn _ p _ => (true, p ++ ["Error"])
    | .done _ p _ => (true, p)
    | .notFound _ p _ => (true, p)
    | .scriptExhausted _ p _ => (true, p)

/-- Session-interface oracle for concrete runs: JSON parsing succeeds on
every payload (returning the payload itself as the parsed representation),
and every session call returns canned data. -/
def envOk : Env :=
  ⟨fun s => some s, fun s => s, fun _ nm _ => "result " ++ nm,
   fun _ _ => some ["text"], fun _ _ _ => some ["ptext"]⟩

/-- Session-interface oracle whose JSON parsing raises exactly on the
payload `bad`. -/
def envBad : Env :=
  ⟨fun s => if s = "bad" then none else some s, fun s => s,
   fun _ nm _ => "result " ++ nm, fun _ _ => some ["text"],
   fun _ _ _ => some ["ptext"]⟩

/-- A registry with the single tool `a` owned by session 0. -/
def sess1 : List (String × Nat) := [("a", 0)]

/-- A final model response carrying plain text and no tool calls. -/
def finalResp : ModelResponse := ⟨some "bye", []⟩

/-- A model response requesting one resolvable, parseable call of tool
`a`. -/
def toolResp : ModelResponse := ⟨none, [⟨"i", "a", "x"⟩]⟩

/-- Turn whose first call names an unregistered tool and whose second call
would be executable. -/
def scriptC2 : List ModelResponse :=
  [⟨none, [⟨"id1", "missing", "x"⟩, ⟨"id2", "a", "y"⟩]⟩, finalResp]

/-- Turn whose first call carries unparseable arguments and whose second
call would be executable. -/
def scriptC3 : List ModelResponse :=
  [⟨none, [⟨"i1", "a", "bad"⟩, ⟨"i2", "a", "y"⟩]⟩, finalResp]

/-- Two resolvable, parseable calls in one turn, then a final response. -/
def c1calls : List ToolCall := [⟨"i1", "a", "x"⟩, ⟨"i2", "a", "y"⟩]

/-- Script forcing n+1 tool-calling turns before the final response. -/
def c8script (n : Nat) : List ModelResponse :=
  List.replicate (n + 1) toolResp ++ [finalResp]

/-- Registry for the fallback scenario: a tool entry that is not a
`papers://` key, then a `papers://` resource owned by session 1. -/
def sessC7 : List (String × Nat) := [("tool1", 0), ("papers://x", 1)]

/-- State after registering server A advertising a tool named `x` and then
server B advertising a prompt also named `x`. -/
def c10state : ChatState :=
  (connect_to_servers ((⟨[], [], []⟩ : ChatState), [])
    [ConnectOutcome.ok "A" 0 ⟨[⟨"x", "d", "s"⟩], [], []⟩,
     ConnectOutcome.ok "B" 1 ⟨[], [⟨"x", "pd", []⟩], []⟩]).1

theorem dictGet_dictInsert_self (d : List (String × Nat)) (k : String) (v : Nat) :
    dictGet (dictInsert d k v) k = some v := by
  induction d with
  | nil => simp [dictInsert, dictGet]
  | cons hd t ih =>
    obtain ⟨k0, v0⟩ := hd
    by_cases hk : k0 = k
    · simp [dictInsert, hk, dictGet]
    · simp [dictInsert, hk, dictGet, ih]

theorem dictGet_dictInsert_ne (d : List (String × Nat)) (k k0 : String) (v : Nat)
    (h : k0 ≠ k) : dictGet (dictInsert d k0 v) k = dictGet d k := by
  induction d with
  | nil => simp [dictInsert, dictGet, h]
  | cons hd t ih =>
    obtain ⟨k1, v1⟩ := hd
    by_cases hk : k1 = k0
    · subst hk
      simp [dictInsert, dictGet, h]
    · by_cases hk2 : k1 = k
      · have hne : ¬(k = k0) := fun he => h he.symm
        simp [dictInsert, dictGet, hk, hk2, hne]
      · simp [dictInsert, hk, dictGet, hk2, ih]

theorem insertAll_cons (s : List (String × Nat)) (k : String) (ks : List String)
    (sid : Nat) : insertAll s (k :: ks) sid = insertAll (dictInsert s k sid) ks sid := rfl

theorem insertAll_append (s : List (String × Nat)) (a b : List String) (sid : Nat) :
    insertAll s (a ++ b) sid = insertAll (insertAll s a sid) b sid := by
  simp [insertAll, List.foldl_append]

theorem dictGet_insertAll_not_mem (k : String) (sid : Nat) :
    ∀ (ks : List String) (s : List (String × Nat)), k ∉ ks →
    dictGet (insertAll s ks sid) k = dictGet s k := by
  intro ks
  induction ks with
  | nil => intro s _; rfl
  | cons k0 ks ih =>
    intro s h
    rw [insertAll_cons, ih _ (fun hm => h (List.mem_cons_of_mem _ hm)),
      dictGet_dictInsert_ne]
    exact fun he => h (he ▸ List.mem_cons_self _ _)

theorem dictGet_insertAll_mem (k : String) (sid : Nat) :
    ∀ (ks : List String) (s : List (String × Nat)), k ∈ ks →
    dictGet (insertAll s ks sid) k = some sid := by
  intro ks
  induction ks with
  | nil => intro s h; cases h
  | cons k0 ks ih =>
    intro s h
    by_cases hm : k ∈ ks
    · exact ih _ hm
    · have hk : k = k0 := by
        cases List.mem_cons.mp h with
        | inl h1 => exact h1
        | inr h2 => exact absurd h2 hm
      rw [insertAll_cons, dictGet_insertAll_not_mem _ _ _ _ hm, hk,
        dictGet_dictInsert_self]

theorem foldl_sessions {α : Type} (sid : Nat) (key : α → String)
    (step : ChatState → α → ChatState)
    (hstep : ∀ st x, (step st x).sessions = dictInsert st.sessions (key x) sid) :
    ∀ (l : List α) (st : ChatState),
    (l.foldl step st).sessions = insertAll st.sessions (l.map key) sid := by
  intro l
  induction l with
  | nil => intro st; rfl
  | cons x xs ih =>
    intro st
    rw [List.foldl_cons, ih, hstep, List.map_cons, insertAll_cons]

theorem registerTools_sessions (sid : Nat) (ts : List Tool) (st : ChatState) :
    (registerTools sid ts st).sessions = insertAll st.sessions (ts.map Tool.name) sid :=
  foldl_sessions sid Tool.name _ (fun _ _ => rfl) ts st

theorem registerPrompts_sessions (sid : Nat) (ps : List Prompt) (st : ChatState) :
    (registerPrompts sid ps st).sessions = insertAll st.sessions (ps.map Prompt.name) sid :=
  foldl_sessions sid Prompt.name _ (fun _ _ => rfl) ps st

theorem registerResources_sessions (sid : Nat) (rs : List String) (st : ChatState) :
    (registerResources sid rs st).sessions = insertAll st.sessions rs sid := by
  have h := foldl_sessions sid (fun u => u) (fun acc uri =>
    ⟨acc.available_tools, acc.available_prompts, dictInsert acc.sessions uri sid⟩)
    (fun _ _ => rfl) rs st
  simpa using h

theorem connect_ok_sessions (acc : ChatState × List String) (nm : String)
    (sid : Nat) (d : ServerData) :
    ((connect_to_server acc (ConnectOutcome.ok nm sid d)).1).sessions =
      insertAll acc.1.sessions (serverKeys d) sid := by
  show (registerResources sid d.resources
      (registerPrompts sid d.prompts (registerTools sid d.tools acc.1))).sessions = _
  rw [registerResources_sessions, registerPrompts_sessions, registerTools_sessions,
    serverKeys, insertAll_append, insertAll_append]

theorem foldl_connect_fst :
    ∀ (os : List ConnectOutcome) (st : ChatState) (l l' : List String),
    (List.foldl connect_to_server (st, l) os).1 =
      (List.foldl connect_to_server (st, l') os).1 := by
  intro os
  induction os with
  | nil => intro st l l'; rfl
  | cons o os ih =>
    intro st l l'
    cases o with
    | ok nm sid d =>
      simp only [List.foldl_cons, connect_to_server]
      exact ih _ _ _
    | fail nm err =>
      simp only [List.foldl_cons, connect_to_server]
      exact ih _ _ _

theorem foldl_connect_log_mem :
    ∀ (os : List ConnectOutcome) (st : ChatState) (l : List String) (x : String),
    x ∈ l → x ∈ (List.foldl connect_to_server (st, l) os).2 := by
  intro os
  induction os with
  | nil => intro st l x hx; exact hx
  | cons o os ih =>
    intro st l x hx
    cases o with
    | ok nm sid d =>
      simp only [List.foldl_cons, connect_to_server]
      exact ih _ _ _ (List.mem_append_left _ hx)
    | fail nm err =>
      simp only [List.foldl_cons, connect_to_server]
      exact ih _ _ _ (List.mem_append_left _ hx)

/-- C5: a connection or handshake failure for one configured server is
absorbed inside that call of `connect_to_server` (its error is logged) and
leaves the registry state exactly as if the failing server had not been
configured at all: registration of the servers before and after it
proceeds normally and the failed server contributes no tools, prompts or
resources. -/
theorem c5_partial_availability (st : ChatState) (log : List String)
    (pre post : List ConnectOutcome) (nm err : String) :
    (connect_to_servers (st, log) (pre ++ ConnectOutcome.fail nm err :: post)).1 =
      (connect_to_servers (st, log) (pre ++ post)).1 ∧
    ("Error connecting to " ++ nm ++ ": " ++ err) ∈
      (connect_to_servers (st, log) (pre ++ ConnectOutcome.fail nm err :: post)).2 := by
  constructor
  · show (List.foldl connect_to_server (st, log) (pre ++ _ :: post)).1 =
      (List.foldl connect_to_server (st, log) (pre ++ post)).1
    rw [List.foldl_append, List.foldl_append, List.foldl_cons]
    have h1 : connect_to_server (List.foldl connect_to_server (st, log) pre)
        (ConnectOutcome.fail nm err) =
        ((List.foldl connect_to_server (st, log) pre).1,
         (List.foldl connect_to_server (st, log) pre).2 ++
           ["Error connecting to " ++ nm ++ ": " ++ err]) := rfl
    rw [h1, foldl_connect_fst post _ _ (List.foldl connect_to_server (st, log) pre).2]
  · show ("Error connecting to " ++ nm ++ ": " ++ err) ∈
      (List.foldl connect_to_server (st, log) (pre ++ _ :: post)).2
    rw [List.foldl_append, List.foldl_cons]
    have h1 : connect_to_server (List.foldl connect_to_server (st, log) pre)
        (ConnectOutcome.fail nm err) =
        ((List.foldl connect_to_server (st, log) pre).1,
         (List.foldl connect_to_server (st, log) pre).2 ++
           ["Error connecting to " ++ nm ++ ": " ++ err]) := rfl
    rw [h1]
    exact foldl_connect_log_mem post _ _ _
      (List.mem_append_right _ (List.mem_singleton.mpr rfl))

/-- C6: the flat registry maps each capability name to exactly one owning
session (the `Option` result of `dictGet`), and when two servers both
advertise a name `t`, after registering server A then server B the name
resolves to the session of B: the later registration silently overwrites
the earlier mapping, deterministically, with no error raised. -/
theorem c6_last_writer_wins (acc : ChatState × List String) (nmA nmB : String)
    (sa sb : Nat) (da db : ServerData) (t : String)
    (ha : t ∈ serverKeys da) (hb : t ∈ serverKeys db) :
    dictGet ((connect_to_server acc (ConnectOutcome.ok nmA sa da)).1).sessions t = some sa ∧
    dictGet ((connect_to_servers acc
        [ConnectOutcome.ok nmA sa da, ConnectOutcome.ok nmB sb db]).1).sessions t = some sb := by
  constructor
  · rw [connect_ok_sessions]
    exact dictGet_insertAll_mem t sa (serverKeys da) acc.1.sessions ha
  · show dictGet ((connect_to_server (connect_to_server acc (ConnectOutcome.ok nmA sa da))
        (ConnectOutcome.ok nmB sb db)).1).sessions t = some sb
    rw [connect_ok_sessions]
    exact dictGet_insertAll_mem t sb (serverKeys db) _ hb

/-- Witness for C6 at a concrete input: servers A and B both advertise a
tool named `x`; after A alone it resolves to session 0, after both to
session 1. -/
theorem c6_last_writer_wins_witness :
    dictGet ((connect_to_server ((⟨[], [], []⟩ : ChatState), [])
        (ConnectOutcome.ok "A" 0 ⟨[⟨"x", "d", "s"⟩], [], []⟩)).1).sessions "x" = some 0 ∧
    dictGet ((connect_to_servers ((⟨[], [], []⟩ : ChatState), [])
        [ConnectOutcome.ok "A" 0 ⟨[⟨"x", "d", "s"⟩], [], []⟩,
         ConnectOutcome.ok "B" 1 ⟨[⟨"x", "d2", "s2"⟩], [], []⟩]).1).sessions "x" = some 1 :=
  c6_last_writer_wins ((⟨[], [], []⟩ : ChatState), []) "A" "B" 0 1
    ⟨[⟨"x", "d", "s"⟩], [], []⟩ ⟨[⟨"x", "d2", "s2"⟩], [], []⟩ "x"
    (by decide) (by decide)

theorem pairsFor_length (env : Env) (argOf : ToolCall → String)
    (sidOf : ToolCall → Nat) :
    ∀ calls : List ToolCall,
    (pairsFor env argOf sidOf calls).length = 2 * calls.length := by
  intro calls
  induction calls with
  | nil => rfl
  | cons c cs ih =>
    simp [pairsFor, callPair, ih]
    omega

theorem handleCalls_ok (env : Env) (sessions : List (String × Nat))
    (argOf : ToolCall → String) (sidOf : ToolCall → Nat) :
    ∀ (calls : List ToolCall) (msgs : List Message) (printed : List String),
    (∀ c ∈ calls, env.parse c.arguments = some (argOf c) ∧
      dictGet sessions c.name = some (sidOf c)) →
    handleCalls env sessions calls msgs printed =
      TurnResult.ok (msgs ++ pairsFor env argOf sidOf calls)
        (printed ++ printsFor argOf calls) := by
  intro calls
  induction calls with
  | nil => intro msgs printed _; simp [handleCalls, pairsFor, printsFor]
  | cons c cs ih =>
    intro msgs printed h
    have hc := h c (List.mem_cons_self c cs)
    simp only [handleCalls, hc.1, hc.2]
    rw [ih _ _ (fun x hx => h x (List.mem_cons_of_mem c hx))]
    simp [pairsFor, printsFor, callPair, List.append_assoc]

theorem handleCalls_earlyReturn (env : Env) (sessions : List (String × Nat))
    (argOf : ToolCall → String) (sidOf : ToolCall → Nat) :
    ∀ (pre : List ToolCall) (c : ToolCall) (post : List ToolCall)
      (msgs : List Message) (printed : List String) (v : String),
    (∀ x ∈ pre, env.parse x.arguments = some (argOf x) ∧
      dictGet sessions x.name = some (sidOf x)) →
    env.parse c.arguments = some v →
    dictGet sessions c.name = none →
    handleCalls env sessions (pre ++ c :: post) msgs printed =
      TurnResult.earlyReturn (msgs ++ pairsFor env argOf sidOf pre)
        (printed ++ printsFor argOf pre ++
          [callingMsg c.name v, toolNotFoundMsg c.name]) := by
  intro pre
  induction pre with
  | nil =>
    intro c post msgs printed v _ hp hn
    simp [handleCalls, hp, hn, pairsFor, printsFor]
  | cons x xs ih =>
    intro c post msgs printed v h hp hn
    have hx := h x (List.mem_cons_self x xs)
    simp only [List.cons_append, handleCalls, hx.1, hx.2, List.append_eq]
    rw [ih c post _ _ v (fun y hy => h y (List.mem_cons_of_mem x hy)) hp hn]
    simp [pairsFor, printsFor, callPair, List.append_assoc]

theorem handleCalls_raised (env : Env) (sessions : List (String × Nat))
    (argOf : ToolCall → String) (sidOf : ToolCall → Nat) :
    ∀ (pre : List ToolCall) (c : ToolCall) (post : List ToolCall)
      (msgs : List Message) (printed : List String),
    (∀ x ∈ pre, env.parse x.arguments = some (argOf x) ∧
      dictGet sessions x.name = some (sidOf x)) →
    env.parse c.arguments = none →
    handleCalls env sessions (pre ++ c :: post) msgs printed =
      TurnResult.raised (msgs ++ pairsFor env argOf sidOf pre)
        (printed ++ printsFor argOf pre) := by
  intro pre
  induction pre with
  | nil =>
    intro c post msgs printed _ hp
    simp [handleCalls, hp, pairsFor, printsFor]
  | cons x xs ih =>
    intro c post msgs printed h hp
    have hx := h x (List.mem_cons_self x xs)
    simp only [List.cons_append, handleCalls, hx.1, hx.2, List.append_eq]
    rw [ih c post _ _ (fun y hy => h y (List.mem_cons_of_mem x hy)) hp]
    simp [pairsFor, printsFor, callPair, List.append_assoc]

/-- C1: for a model turn whose response carries the tool-invocation
requests `calls` (each resolvable in `sessions` and with parseable
arguments), the loop appends exactly the concatenated assistant/tool pairs
for those calls, in request order, to the transcript before the next model
call (the recursive invocation on the rest of the script), and the number
of appended entries is exactly two per request: one assistant entry with
the request id, tool name and re-serialized arguments, immediately
followed by one tool entry with the same id and the returned content (see
`pairsFor` and `callPair`). -/
theorem c1_turn_pairs (env : Env) (sessions : List (String × Nat))
    (calls : List ToolCall) (ct : Option String) (rest : List ModelResponse)
    (msgs : List Message) (printed : List String) (n : Nat)
    (argOf : ToolCall → String) (sidOf : ToolCall → Nat)
    (hne : calls ≠ [])
    (h : ∀ c ∈ calls, env.parse c.arguments = some (argOf c) ∧
      dictGet sessions c.name = some (sidOf c)) :
    processQueryLoop env sessions (ModelResponse.mk ct calls :: rest) msgs printed n =
      processQueryLoop env sessions rest (msgs ++ pairsFor env argOf sidOf calls)
        (printed ++ printsFor argOf calls) (n + 1) ∧
    (pairsFor env argOf sidOf calls).length = 2 * calls.length := by
  constructor
  · simp only [processQueryLoop]
    rw [if_neg hne, handleCalls_ok env sessions argOf sidOf calls msgs printed h]
  · exact pairsFor_length env argOf sidOf calls

/-- Witness for C1 at a concrete input: a turn with two executable calls
of tool `a` appends their two assistant/tool pairs before the next model
call. -/
theorem c1_turn_pairs_witness :
    (processQueryLoop envOk sess1 (ModelResponse.mk none c1calls :: [finalResp])
        [Message.user "q"] [] 0 =
      processQueryLoop envOk sess1 [finalResp]
        ([Message.user "q"] ++
          pairsFor envOk (fun c => c.arguments) (fun _ => 0) c1calls)
        ([] ++ printsFor (fun c => c.arguments) c1calls) (0 + 1)) ∧
    (pairsFor envOk (fun c => c.arguments) (fun _ => 0) c1calls).length =
      2 * c1calls.length :=
  c1_turn_pairs envOk sess1 c1calls none [finalResp] [Message.user "q"] [] 0
    (fun c => c.arguments) (fun _ => 0) (by decide) (by decide)

/-- Counterexample to C2 as stated: on the turn `scriptC2`, whose first
call names the unregistered tool `missing` and whose second call names the
registered tool `a`, `process_query` returns early with the not-found
outcome after one single model call: the second call of the same turn is
never executed (its tool entry is absent from the transcript) and the
remaining scripted model response is never requested, contradicting the
claim that the remaining calls are still processed and the loop proceeds
to the next model call. -/
theorem c2_counterexample :
    process_query envOk sess1 scriptC2 "q" =
      QueryResult.notFound [Message.user "q"]
        [callingMsg "missing" "x", toolNotFoundMsg "missing"] 1 ∧
    modelCallsOf (process_query envOk sess1 scriptC2 "q") = 1 ∧
    scriptC2.length = 2 ∧
    Message.tool "id2" (envOk.callTool 0 "a" "y") ∉
      msgsOf (process_query envOk sess1 scriptC2 "q") := by
  decide

/-- C2 amended: when one tool-invocation request of a turn names a
capability with no entry in the sessions mapping, `process_query` prints a
not-found message for that call and returns immediately, aborting the
query: the calls before it in the same turn have been executed and
recorded, the remaining calls of the turn are not processed, and no
further model call is issued. -/
theorem c2_abort_on_not_found (env : Env) (sessions : List (String × Nat))
    (pre : List ToolCall) (c : ToolCall) (post : List ToolCall)
    (ct : Option String) (rest : List ModelResponse)
    (msgs : List Message) (printed : List String) (n : Nat)
    (argOf : ToolCall → String) (sidOf : ToolCall → Nat) (v : String)
    (h : ∀ x ∈ pre, env.parse x.arguments = some (argOf x) ∧
      dictGet sessions x.name = some (sidOf x))
    (hp : env.parse c.arguments = some v)
    (hn : dictGet sessions c.name = none) :
    processQueryLoop env sessions (ModelResponse.mk ct (pre ++ c :: post) :: rest)
        msgs printed n =
      QueryResult.notFound (msgs ++ pairsFor env argOf sidOf pre)
        (printed ++ printsFor argOf pre ++
          [callingMsg c.name v, toolNotFoundMsg c.name]) (n + 1) := by
  simp only [processQueryLoop]
  rw [if_neg (by simp), handleCalls_earlyReturn env sessions argOf sidOf
    pre c post msgs printed v h hp hn]

/-- Witness for the amended C2 at the concrete input of the
counterexample. -/
theorem c2_abort_on_not_found_witness :
    processQueryLoop envOk sess1
        (ModelResponse.mk none ([] ++ (⟨"id1", "missing", "x"⟩ : ToolCall) ::
          [⟨"id2", "a", "y"⟩]) :: [finalResp]) [Message.user "q"] [] 0 =
      QueryResult.notFound ([Message.user "q"] ++
          pairsFor envOk (fun c => c.arguments) (fun _ => 0) [])
        ([] ++ printsFor (fun c => c.arguments) [] ++
          [callingMsg "missing" "x", toolNotFoundMsg "missing"]) (0 + 1) :=
  c2_abort_on_not_found envOk sess1 [] ⟨"id1", "missing", "x"⟩
    [⟨"id2", "a", "y"⟩] none [finalResp] [Message.user "q"] [] 0
    (fun c => c.arguments) (fun _ => 0) "x" (by decide) (by decide) (by decide)

theorem chat_step_continues (env : Env) (st : ChatState)
    (script : List ModelResponse) (query : String)
    (h : pyLower (pyStrip query) ≠ "quit") : (chat_step env st script query).1 = true := by
  simp only [chat_step]
  by_cases h1 : pyStrip query = ""
  · simp [h1]
  · rw [if_neg h1, if_neg h]
    by_cases h2 : pyStartsWith (pyStrip query) "@"
    · rw [if_pos h2]
    · rw [if_neg h2]
      by_cases h3 : pyStartsWith (pyStrip query) "/"
      · rw [if_pos h3]
        cases hs : splitWs (pyStrip query) with
        | nil => rfl
        | cons cmd rest =>
          dsimp only
          by_cases h4 : pyLower cmd = "/prompts"
          · simp [h4]
          · rw [if_neg h4]
            by_cases h5 : pyLower cmd = "/prompt"
            · rw [if_pos h5]
              cases rest <;> rfl
            · rw [if_neg h5]
      · rw [if_neg h3]
        cases process_query env st.sessions script (pyStrip query) <;> rfl

/-- Counterexample to C3 as stated: on the turn `scriptC3`, whose first
call carries the unparseable argument payload `bad` and whose second call
would be executable, the decode failure is not reported per-call: it
escapes `process_query` as an exception (the `exn` outcome) after one
single model call, the sibling call of the same turn is never executed,
and the remaining scripted model response is never requested. -/
theorem c3_counterexample :
    process_query envBad sess1 scriptC3 "q" =
      QueryResult.exn [Message.user "q"] [] 1 ∧
    modelCallsOf (process_query envBad sess1 scriptC3 "q") = 1 ∧
    scriptC3.length = 2 ∧
    Message.tool "i2" (envBad.callTool 0 "a" "y") ∉
      msgsOf (process_query envBad sess1 scriptC3 "q") := by
  decide

/-- C3 amended: a tool-invocation request whose argument payload is not
parseable makes `json.loads` raise; the exception aborts the whole turn
(the calls before it stay recorded, the sibling calls after it are not
executed, no further model call is issued) and propagates out of
`process_query`; the surrounding interactive loop catches it, prints an
error line and keeps accepting input. -/
theorem c3_exception_on_bad_args (env : Env) (sessions : List (String × Nat))
    (pre : List ToolCall) (c : ToolCall) (post : List ToolCall)
    (ct : Option String) (rest : List ModelResponse)
    (msgs : List Message) (printed : List String) (n : Nat)
    (argOf : ToolCall → String) (sidOf : ToolCall → Nat)
    (h : ∀ x ∈ pre, env.parse x.arguments = some (argOf x) ∧
      dictGet sessions x.name = some (sidOf x))
    (hp : env.parse c.arguments = none) :
    processQueryLoop env sessions (ModelResponse.mk ct (pre ++ c :: post) :: rest)
        msgs printed n =
      QueryResult.exn (msgs ++ pairsFor env argOf sidOf pre)
        (printed ++ printsFor argOf pre) (n + 1) ∧
    (∀ (st : ChatState) (query : String),
      st.sessions = sessions → pyStrip query = query → query ≠ "" →
      pyLower query ≠ "quit" → pyStartsWith query "@" = false →
      pyStartsWith query "/" = false →
      chat_step env st (ModelResponse.mk ct (pre ++ c :: post) :: rest) query =
        (true, printsFor argOf pre ++ ["Error"])) := by
  have key : ∀ (msgs : List Message) (printed : List String) (n : Nat),
      processQueryLoop env sessions (ModelResponse.mk ct (pre ++ c :: post) :: rest)
          msgs printed n =
        QueryResult.exn (msgs ++ pairsFor env argOf sidOf pre)
          (printed ++ printsFor argOf pre) (n + 1) := by
    intro msgs printed n
    simp only [processQueryLoop]
    rw [if_neg (by simp), handleCalls_raised env sessions argOf sidOf
      pre c post msgs printed h hp]
  refine ⟨key msgs printed n, ?_⟩
  intro st query hsess htrim hne hq h1 h2
  simp only [chat_step, htrim]
  rw [if_neg hne, if_neg hq, if_neg (by simp [h1]), if_neg (by simp [h2]), hsess]
  show (match process_query env sessions _ query with
    | QueryResult.exn _ p _ => (true, p ++ ["Error"])
    | QueryResult.done _ p _ => (true, p)
    | QueryResult.notFound _ p _ => (true, p)
    | QueryResult.scriptExhausted _ p _ => (true, p)) = _
  rw [show process_query env sessions
      (ModelResponse.mk ct (pre ++ c :: post) :: rest) query =
      QueryResult.exn ([Message.user query] ++ pairsFor env argOf sidOf pre)
        ([] ++ printsFor argOf pre) (0 + 1) from key [Message.user query] [] 0]
  simp

/-- Witness for the amended C3 at the concrete input of the
counterexample, including the interactive-loop step on the free-text query
`hello`. -/
theorem c3_exception_on_bad_args_witness :
    (processQueryLoop envBad sess1
        (ModelResponse.mk none ([] ++ (⟨"i1", "a", "bad"⟩ : ToolCall) ::
          [⟨"i2", "a", "y"⟩]) :: [finalResp]) [Message.user "q"] [] 0 =
      QueryResult.exn ([Message.user "q"] ++
          pairsFor envBad (fun c => c.arguments) (fun _ => 0) [])
        ([] ++ printsFor (fun c => c.arguments) []) (0 + 1)) ∧
    chat_step envBad ⟨[], [], sess1⟩
        (ModelResponse.mk none ([] ++ (⟨"i1", "a", "bad"⟩ : ToolCall) ::
          [⟨"i2", "a", "y"⟩]) :: [finalResp]) "hello" =
      (true, printsFor (fun c => c.arguments) [] ++ ["Error"]) := by
  have h := c3_exception_on_bad_args envBad sess1 [] ⟨"i1", "a", "bad"⟩
    [⟨"i2", "a", "y"⟩] none [finalResp] [Message.user "q"] [] 0
    (fun c => c.arguments) (fun _ => 0) (by decide) (by decide)
  exact ⟨h.1, h.2 ⟨[], [], sess1⟩ "hello" rfl (by decide) (by decide)
    (by decide) (by decide) (by decide)⟩

/-- Counterexample to C4 as stated: on a script whose single response
carries the plain text `hello` and no tool calls, `process_query` prints
the text and terminates, but the final transcript is still just the user
message: no assistant transcript entry carrying the response text is
appended. -/
theorem c4_counterexample :
    process_query envOk [] [ModelResponse.mk (some "hello") []] "q" =
      QueryResult.done [Message.user "q"] ["hello"] 1 ∧
    Message.assistantText "hello" ∉
      msgsOf (process_query envOk [] [ModelResponse.mk (some "hello") []] "q") := by
  decide

/-- C4 amended: for every model response containing no tool-invocation
requests, the conversation loop prints the response text and terminates
(the `done` outcome, with no further model call); the response text is not
appended to the transcript, which is returned unchanged. -/
theorem c4_done_without_append (env : Env) (sessions : List (String × Nat))
    (r : ModelResponse) (rest : List ModelResponse)
    (msgs : List Message) (printed : List String) (n : Nat)
    (h : r.tool_calls = []) :
    processQueryLoop env sessions (r :: rest) msgs printed n =
      QueryResult.done msgs (printed ++ [optContent r.content]) (n + 1) := by
  simp only [processQueryLoop]
  rw [if_pos h]

/-- Witness for the amended C4 at a concrete input. -/
theorem c4_done_without_append_witness :
    processQueryLoop envOk [] [ModelResponse.mk (some "hello") []]
        [Message.user "q"] [] 0 =
      QueryResult.done [Message.user "q"]
        ([] ++ [optContent (ModelResponse.mk (some "hello") []).content]) (0 + 1) :=
  c4_done_without_append envOk [] (ModelResponse.mk (some "hello") []) []
    [Message.user "q"] [] 0 (by decide)

theorem findSchemeSession_mem :
    ∀ (pre : List (String × Nat)) (k : String) (s : Nat) (rest : List (String × Nat)),
    (∀ p ∈ pre, pyStartsWith p.1 "papers://" = false) →
    pyStartsWith k "papers://" = true →
    findSchemeSession (pre ++ (k, s) :: rest) = some s := by
  intro pre
  induction pre with
  | nil =>
    intro k s rest _ hk
    simp [findSchemeSession, hk]
  | cons p ps ih =>
    intro k s rest h hk
    obtain ⟨k0, s0⟩ := p
    have h0 := h (k0, s0) (List.mem_cons_self _ _)
    simp only [List.cons_append, findSchemeSession]
    rw [if_neg (by simp [h0])]
    exact ih k s rest (fun q hq => h q (List.mem_cons_of_mem _ hq)) hk

theorem findSchemeSession_none :
    ∀ l : List (String × Nat),
    (∀ p ∈ l, pyStartsWith p.1 "papers://" = false) →
    findSchemeSession l = none := by
  intro l
  induction l with
  | nil => intro _; rfl
  | cons p ps ih =>
    intro h
    obtain ⟨k0, s0⟩ := p
    have h0 := h (k0, s0) (List.mem_cons_self _ _)
    simp only [findSchemeSession]
    rw [if_neg (by simp [h0])]
    exact ih (fun q hq => h q (List.mem_cons_of_mem _ hq))

/-- C7: when `get_resource` is called with a URI that has no exact entry
in the sessions mapping but starts with `papers://`, it resolves to the
session of the first mapping entry (in mapping order) whose key starts
with `papers://` and performs the read through that session; when no entry
at all has a `papers://` key it prints not-found and returns (a non-fatal
outcome value, not an exception). -/
theorem c7_papers_fallback (env : Env) (sessions : List (String × Nat)) (uri : String)
    (hmiss : dictGet sessions uri = none)
    (hsch : pyStartsWith uri "papers://" = true) :
    (∀ (pre : List (String × Nat)) (k : String) (s : Nat) (rest : List (String × Nat)),
      sessions = pre ++ (k, s) :: rest →
      (∀ p ∈ pre, pyStartsWith p.1 "papers://" = false) →
      pyStartsWith k "papers://" = true →
      resolveResource sessions uri = some s ∧
      get_resource env sessions uri = readThrough env s uri) ∧
    ((∀ p ∈ sessions, pyStartsWith p.1 "papers://" = false) →
      get_resource env sessions uri =
        ResourceOutcome.notFound ["Resource " ++ uri ++ " not found."]) := by
  constructor
  · intro pre k s rest hsess hpre hk
    have hres : resolveResource sessions uri = some s := by
      simp only [resolveResource, hmiss]
      rw [if_pos hsch, hsess]
      exact findSchemeSession_mem pre k s rest hpre hk
    exact ⟨hres, by simp only [get_resource, hres]⟩
  · intro hall
    have hres : resolveResource sessions uri = none := by
      simp only [resolveResource, hmiss]
      rw [if_pos hsch]
      exact findSchemeSession_none sessions hall
    simp only [get_resource, hres]

/-- Witness for C7 at a concrete input: `papers://folders` has no exact
entry in `sessC7`, the first `papers://` key belongs to session 1, and the
read goes through session 1. -/
theorem c7_papers_fallback_witness :
    resolveResource sessC7 "papers://folders" = some 1 ∧
    get_resource envOk sessC7 "papers://folders" =
      readThrough envOk 1 "papers://folders" :=
  (c7_papers_fallback envOk sessC7 "papers://folders" (by decide) (by decide)).1
    [("tool1", 0)] "papers://x" 1 [] rfl (by decide) (by decide)

theorem c8_loop_count :
    ∀ (m : Nat) (msgs : List Message) (printed : List String) (k : Nat),
    modelCallsOf (processQueryLoop envOk sess1
      (List.replicate m toolResp ++ [finalResp]) msgs printed k) = k + m + 1 ∧
    isDone (processQueryLoop envOk sess1
      (List.replicate m toolResp ++ [finalResp]) msgs printed k) = true := by
  intro m
  induction m with
  | zero =>
    intro msgs printed k
    simp [processQueryLoop, finalResp, modelCallsOf, isDone]
  | succ m ih =>
    intro msgs printed k
    rw [List.replicate_succ, List.cons_append]
    simp only [processQueryLoop]
    rw [if_neg (by decide)]
    rw [handleCalls_ok envOk sess1 (fun c => c.arguments) (fun _ => 0)
      toolResp.tool_calls msgs printed (by decide)]
    refine ⟨?_, (ih _ _ (k + 1)).2⟩
    rw [(ih _ _ (k + 1)).1]
    omega

theorem done_has_plain_response (env : Env) (sessions : List (String × Nat)) :
    ∀ (script : List ModelResponse) (msgs : List Message)
      (printed : List String) (k : Nat),
    isDone (processQueryLoop env sessions script msgs printed k) = true →
    ∃ r, r ∈ script ∧ r.tool_calls = [] := by
  intro script
  induction script with
  | nil =>
    intro msgs printed k h
    simp [processQueryLoop, isDone] at h
  | cons r rest ih =>
    intro msgs printed k h
    by_cases hr : r.tool_calls = []
    · exact ⟨r, List.mem_cons_self _ _, hr⟩
    · simp only [processQueryLoop, if_neg hr] at h
      cases hh : handleCalls env sessions r.tool_calls msgs printed with
      | ok m2 p2 =>
        rw [hh] at h
        obtain ⟨r2, hr2, he⟩ := ih m2 p2 (k + 1) h
        exact ⟨r2, List.mem_cons_of_mem _ hr2, he⟩
      | earlyReturn m2 p2 =>
        rw [hh] at h
        simp [isDone] at h
      | raised m2 p2 =>
        rw [hh] at h
        simp [isDone] at h

/-- C8: the conversation loop has no upper iteration bound: for every
bound n, the script `c8script n` (each of whose first n+1 responses
carries one resolvable, parseable tool call) makes `process_query` issue
n+2 model calls, strictly more than n, and still reach the terminating
`done` outcome; moreover the loop terminates with `done` only when some
response of the script carries no tool-invocation requests. -/
theorem c8_no_iteration_bound :
    (∀ n : Nat,
      modelCallsOf (process_query envOk sess1 (c8script n) "q") = n + 2 ∧
      n + 2 > n ∧
      isDone (process_query envOk sess1 (c8script n) "q") = true ∧
      toolResp.tool_calls ≠ [] ∧
      (∀ c ∈ toolResp.tool_calls,
        envOk.parse c.arguments = some c.arguments ∧ dictGet sess1 c.name = some 0)) ∧
    (∀ (env : Env) (sessions : List (String × Nat)) (script : List ModelResponse)
      (msgs : List Message) (printed : List String) (k : Nat),
      isDone (processQueryLoop env sessions script msgs printed k) = true →
      ∃ r, r ∈ script ∧ r.tool_calls = []) := by
  constructor
  · intro n
    refine ⟨?_, by omega, ?_, by decide, by decide⟩
    · show modelCallsOf (processQueryLoop envOk sess1
        (List.replicate (n + 1) toolResp ++ [finalResp]) [Message.user "q"] [] 0) = n + 2
      rw [(c8_loop_count (n + 1) [Message.user "q"] [] 0).1]
      omega
    · exact (c8_loop_count (n + 1) [Message.user "q"] [] 0).2
  · intro env sessions script msgs printed k h
    exact done_has_plain_response env sessions script msgs printed k h

/-- Witness for C8 at a concrete bound. -/
theorem c8_no_iteration_bound_witness :
    modelCallsOf (process_query envOk sess1 (c8script 3) "q") = 3 + 2 ∧
    (∃ r, r ∈ [finalResp] ∧ r.tool_calls = []) :=
  ⟨(c8_no_iteration_bound.1 3).1,
   c8_no_iteration_bound.2 envOk sess1 [finalResp] [] [] 0 (by decide)⟩

/-- C9: for a prompt name with no entry in the sessions mapping,
`execute_prompt` prints a not-found message and returns without
instantiating the prompt (`getPrompt` is never consulted: the outcome is
the pre-`try` `notFound` value) and without performing any model call, and
one interactive-loop step on any non-quit input keeps accepting input. -/
theorem c9_prompt_not_found (env : Env) (st : ChatState)
    (script : List ModelResponse) (nm : String) (args : List (String × String))
    (h : dictGet st.sessions nm = none) :
    execute_prompt env st script nm args =
      PromptOutcome.notFound ["Prompt " ++ nm ++ " not found."] ∧
    promptModelCalls (execute_prompt env st script nm args) = 0 ∧
    (∀ query : String, pyLower (pyStrip query) ≠ "quit" →
      (chat_step env st script query).1 = true) := by
  have h1 : execute_prompt env st script nm args =
      PromptOutcome.notFound ["Prompt " ++ nm ++ " not found."] := by
    simp only [execute_prompt, h]
  exact ⟨h1, by rw [h1]; rfl, fun query hq => chat_step_continues env st script query hq⟩

/-- Witness for C9 at the concrete scenario of the spec: no prompt named
`summarize` is registered, and the `/prompt summarize topic=quantum` line
keeps the interactive loop accepting input. -/
theorem c9_prompt_not_found_witness :
    execute_prompt envOk ⟨[], [], sess1⟩ [] "summarize" [("topic", "quantum")] =
      PromptOutcome.notFound ["Prompt " ++ "summarize" ++ " not found."] ∧
    (chat_step envOk ⟨[], [], sess1⟩ [] "/prompt summarize topic=quantum").1 = true := by
  have h := c9_prompt_not_found envOk ⟨[], [], sess1⟩ [] "summarize"
    [("topic", "quantum")] (by decide)
  exact ⟨h.1, h.2.2 "/prompt summarize topic=quantum" (by decide)⟩

/-- C10: tool names, prompt names and resource URIs share the one flat
sessions mapping: after server A registers a tool named like the prompt
server B registers later, the single entry is overwritten to B, and both
the tool dispatch of `process_query` (`handleCalls` routes the call to
session `sb`) and the prompt dispatch of `execute_prompt` (which proceeds
with session `sb`) resolve the shared string to the later registration. -/
theorem c10_flat_namespace (env : Env) (acc : ChatState × List String)
    (nmA nmB : String) (sa sb : Nat) (ta : Tool) (pb : Prompt)
    (hname : pb.name = ta.name) (st2 : ChatState)
    (hst : st2 = (connect_to_servers acc
      [ConnectOutcome.ok nmA sa ⟨[ta], [], []⟩,
       ConnectOutcome.ok nmB sb ⟨[], [pb], []⟩]).1)
    (script : List ModelResponse) (args : List (String × String))
    (cid raw v : String) (hparse : env.parse raw = some v) :
    dictGet st2.sessions ta.name = some sb ∧
    handleCalls env st2.sessions [⟨cid, ta.name, raw⟩] [] [] =
      TurnResult.ok [Message.assistantToolCall cid ta.name (env.dumps v),
        Message.tool cid (env.callTool sb ta.name v)] [callingMsg ta.name v] ∧
    execute_prompt env st2 script ta.name args =
      promptDispatch env st2 script sb ta.name args := by
  have hlook : dictGet st2.sessions ta.name = some sb := by
    subst hst
    show dictGet ((connect_to_server (connect_to_server acc
      (ConnectOutcome.ok nmA sa ⟨[ta], [], []⟩))
      (ConnectOutcome.ok nmB sb ⟨[], [pb], []⟩)).1).sessions ta.name = some sb
    rw [connect_ok_sessions]
    apply dictGet_insertAll_mem
    simp [serverKeys, hname]
  refine ⟨hlook, ?_, ?_⟩
  · simp [handleCalls, hparse, hlook]
  · simp only [execute_prompt, hlook]

/-- Witness for C10 at a concrete input: server A registers tool `x`,
server B then registers prompt `x`; the shared entry resolves to session 1
in both dispatch paths. -/
theorem c10_flat_namespace_witness :
    dictGet c10state.sessions "x" = some 1 ∧
    handleCalls envOk c10state.sessions [⟨"cid", "x", "r"⟩] [] [] =
      TurnResult.ok [Message.assistantToolCall "cid" "x" (envOk.dumps "r"),
        Message.tool "cid" (envOk.callTool 1 "x" "r")] [callingMsg "x" "r"] ∧
    execute_prompt envOk c10state [] "x" [] =
      promptDispatch envOk c10state [] 1 "x" [] :=
  c10_flat_namespace envOk ((⟨[], [], []⟩ : ChatState), []) "A" "B" 0 1
    ⟨"x", "d", "s"⟩ ⟨"x", "pd", []⟩ rfl c10state rfl [] [] "cid" "r" "r" rfl

end Mcp
